import Mathlib

/-!
Shallow embedding of the streaming-session orchestrator of this repository:
the Express route handlers of `src/backend/routes/streaming.js` and the
`WowzaStreamingService` media-server control client.  Database tables are
modelled as lists of rows, wall-clock timestamps as natural numbers, and the
external SSH / HTTP transports as explicit oracle parameters together with a
trace of the remote actions the handlers issue.
-/

namespace Sam

/-! ## String helpers

JavaScript `String.prototype.includes` / `endsWith` are modelled over the
character lists of Lean strings. -/

/-- Predicate `listHasPre n h` holds when `n` is a leading segment of `h`. -/
def listHasPre : List Char → List Char → Bool
  | [], _ => true
  | _ :: _, [] => false
  | n :: ns, h :: hs => n == h && listHasPre ns hs

/-- Predicate `listHasSub n h` holds when `n` occurs contiguously inside `h`. -/
def listHasSub (n : List Char) : List Char → Bool
  | [] => n.isEmpty
  | c :: hs => listHasPre n (c :: hs) || listHasSub n hs

/-- JavaScript `hay.includes(needle)`. -/
def strContains (hay needle : String) : Bool :=
  listHasSub needle.data hay.data

/-- JavaScript `s.endsWith(suf)`. -/
def strEndsWith (s suf : String) : Bool :=
  listHasPre suf.data.reverse s.data.reverse

/-- JavaScript numeric `a || d`: `0` and `undefined` are falsy. -/
def jsNumOr (v : Option Nat) (d : Nat) : Nat :=
  match v with
  | some n => if n == 0 then d else n
  | none => d

/-- JavaScript string `a || d`: the empty string is falsy. -/
def jsStrOr (s d : String) : String :=
  if s.isEmpty then d else s

/-- JavaScript `email.split('@')[0]`. -/
def emailLocal (e : String) : String :=
  (e.splitOn "@").headD ""

/-! ## Command Builder (`POST /api/streaming/start-live`, lines 279-294)

The handler builds the ffmpeg invocation from the platform id (`tipo`), the
source URL (`servidor_stm`) and the destination URL (`servidor_live`); no
other request data enters the command string. -/

/-- The `servidor_live` destination URL, assembled from the RTMP base and the
stream key (`streaming.js` lines 246-248). -/
def servidorLive (servidor_rtmp servidor_rtmp_chave : String) : String :=
  if strEndsWith servidor_rtmp "/" then servidor_rtmp ++ servidor_rtmp_chave
  else servidor_rtmp ++ "/" ++ servidor_rtmp_chave

/-- The fixed 9:16 centred-crop filter expression used for vertical-crop
platforms. -/
def cropExpr : String := "crop=ih*(9/16):ih"

/-- The ffmpeg invocation of `start-live` (lines 282-291): Facebook gets the
copy pipeline, TikTok / Kwai the vertical-crop re-encode, everything else the
default copy pipeline. -/
def buildFfmpegCommand (tipo servidor_stm servidor_live : String) : String :=
  if tipo == "facebook" then
    "/usr/local/bin/ffmpeg -re -i \"" ++ servidor_stm ++
      "\" -c:v copy -c:a copy -bsf:a aac_adtstoasc -preset ultrafast -strict experimental -threads 1 -f flv \"" ++
      servidor_live ++ "\""
  else if tipo == "tiktok" || tipo == "kwai" then
    "/usr/local/bin/ffmpeg -re -i \"" ++ servidor_stm ++
      "\" -vf \x27crop=ih*(9/16):ih\x27 -crf 21 -r 24 -g 48 -b:v 3000000 -b:a 128k -ar 44100 -acodec aac -vcodec libx264 -preset ultrafast -bufsize \x27(6.000*3000000)/8\x27 -maxrate 3500000 -threads 1 -f flv \"" ++
      servidor_live ++ "\""
  else
    "/usr/local/bin/ffmpeg -re -i \"" ++ servidor_stm ++
      "\" -c:v copy -c:a copy -bsf:a aac_adtstoasc -preset ultrafast -strict experimental -threads 1 -f flv \"" ++
      servidor_live ++ "\""

/-! ## Data model

The `lives` and `transmissoes` MySQL tables, the `playlists`, `streamings`
and `folders` tables read by the handlers, and the module-level
`activeTransmissions` map of `streaming.js` (line 33).  Timestamps are
natural numbers; the MySQL date-string formatting of the source is elided.
Columns that no handler modelled here reads or writes are omitted. -/

/-- Column `lives.status`: `'0'` finalizada, `'1'` transmitindo, `'2'` agendado,
`'3'` erro (see the `GET /lives` mapping, lines 185-201). -/
inductive LiveStatus
  | finalizada
  | transmitindo
  | agendado
  | erro
deriving DecidableEq

/-- Column `transmissoes.status`, the enum of (table DDL, line 119). -/
inductive TransStatus
  | ativa
  | pausada
  | finalizada
deriving DecidableEq

structure LiveRow where
  codigo : Nat
  codigo_stm : Nat
  tipo : String
  servidor_stm : String
  servidor_live : String
  status : LiveStatus
  data_inicio : Nat
  data_fim : Option Nat
deriving DecidableEq

structure TransRow where
  codigo : Nat
  codigo_stm : Nat
  titulo : String
  descricao : String
  codigo_playlist : Nat
  status : TransStatus
  data_inicio : Nat
  data_fim : Option Nat
deriving DecidableEq

structure PlaylistRow where
  id : Nat
  codigo_stm : Nat
  nome : String
  total_videos : Nat
deriving DecidableEq

structure StreamingRow where
  codigo : Nat
  codigo_cliente : Nat
  usuario : String
  email : String
deriving DecidableEq

/-- The relational store; `folders` maps `user_id` to `servidor_id`. -/
structure Store where
  transmissoes : List TransRow
  lives : List LiveRow
  playlists : List PlaylistRow
  streamings : List StreamingRow
  folders : List (Nat × Nat)
  nextTransId : Nat
  nextLiveId : Nat
deriving DecidableEq

/-- Store plus the in-memory `activeTransmissions` map, keyed by
`(userId, liveId)` (the source keys it with the string `userId_liveId`). -/
structure AppState where
  store : Store
  activeTransmissions : List (Nat × Nat)
deriving DecidableEq

/-- Remote side effects issued by the handlers: the SMIL-file refresh and
SSH command execution. -/
inductive RemoteAction
  | smilUpdate (userId : Nat)
  | sshExec (serverId : Nat) (cmd : String)
deriving DecidableEq

/-- Query `SELECT servidor_id FROM folders WHERE user_id = ? LIMIT 1`, defaulting
to server 1. -/
def userServerId (st : Store) (userId : Nat) : Nat :=
  match st.folders.find? (fun f => f.1 == userId) with
  | some f => f.2
  | none => 1

/-- The owner test used by `/start` and `/stop`:
`codigo_stm = userId OR codigo_stm IN
(SELECT codigo FROM streamings WHERE codigo_cliente = userId)`. -/
def ownsStm (st : Store) (userId stm : Nat) : Bool :=
  stm == userId || st.streamings.any (fun s => s.codigo == stm && s.codigo_cliente == userId)

/-- Update `UPDATE lives SET status = ? WHERE codigo = ?`. -/
def setLiveStatus (st : Store) (codigo : Nat) (status : LiveStatus) : Store :=
  { st with lives := st.lives.map (fun l =>
      if l.codigo == codigo then { l with status := status } else l) }

/-- Update `UPDATE lives SET status = "1", data_inicio = NOW() WHERE codigo = ?`. -/
def setLiveStarted (st : Store) (codigo now : Nat) : Store :=
  { st with lives := st.lives.map (fun l =>
      if l.codigo == codigo then { l with status := .transmitindo, data_inicio := now } else l) }

/-- Update `UPDATE lives SET status = "0", data_fim = NOW() WHERE codigo = ?`. -/
def setLiveStopped (st : Store) (codigo now : Nat) : Store :=
  { st with lives := st.lives.map (fun l =>
      if l.codigo == codigo then { l with status := .finalizada, data_fim := some now } else l) }

/-! ## `POST /api/streaming/start` — playlist start (lines 663-794) -/

inductive StartResult
  | invalidRequest (msg : String)
  | notFound (msg : String)
  | conflict (msg : String)
  | ok (transmissionId : Nat) (playlistNome : String)
deriving DecidableEq

/-- The active-transmission check of `/start` (lines 711-717). -/
def hasActiveTransmission (st : Store) (userId : Nat) : Bool :=
  st.transmissoes.any (fun t => ownsStm st userId t.codigo_stm && t.status == TransStatus.ativa)

/-- Handler `POST /api/streaming/start`: validate title/playlist, look the playlist
up, reject when a transmission is already active, then insert the new
`transmissoes` row and refresh the user's SMIL file (SMIL errors are only
logged, so the action is always issued on the success path). -/
def startPlaylist (st : Store) (userId : Nat) (titulo descricao : String)
    (playlist_id : Nat) (now : Nat) : Store × List RemoteAction × StartResult :=
  if titulo.isEmpty || playlist_id == 0 then
    (st, [], .invalidRequest "Título e playlist são obrigatórios")
  else
    match st.playlists.find? (fun p => p.id == playlist_id && ownsStm st userId p.codigo_stm) with
    | none => (st, [], .notFound "Playlist não encontrada")
    | some playlist =>
      if playlist.total_videos == 0 then
        (st, [], .invalidRequest "A playlist deve ter pelo menos um vídeo")
      else if hasActiveTransmission st userId then
        (st, [], .conflict "Já existe uma transmissão ativa. Finalize-a antes de iniciar uma nova.")
      else
        let row : TransRow :=
          { codigo := st.nextTransId, codigo_stm := userId, titulo := titulo,
            descricao := descricao, codigo_playlist := playlist_id,
            status := .ativa, data_inicio := now, data_fim := none }
        ({ st with transmissoes := st.transmissoes ++ [row], nextTransId := st.nextTransId + 1 },
         [RemoteAction.smilUpdate userId], .ok st.nextTransId playlist.nome)

/-! ## `POST /api/streaming/start-live` — external push start (lines 221-384) -/

structure StartLiveReq where
  tipo : String
  servidor_rtmp : String
  servidor_rtmp_chave : String
  servidor_stm : String
  data_inicio : Option Nat
  data_fim : Nat
  inicio_imediato : Bool
deriving DecidableEq

inductive StartLiveResult
  | invalidRequest (msg : String)
  | scheduled (liveId : Nat)
  | started (liveId : Nat)
  | sshFailure (liveId : Nat) (details : String)
deriving DecidableEq

/-- The `ps | grep ... | wc -l` verification command (line 304). -/
def psCheckCommand (userLogin tipo : String) : String :=
  "/bin/ps aux | /bin/grep ffmpeg | /bin/grep rtmp | /bin/grep " ++ userLogin ++
    " | /bin/grep " ++ tipo ++ " | /usr/bin/wc -l"

/-- The detached `screen` session command (line 294). -/
def screenCommand (userLogin : String) (codigoLive : Nat) (ffmpegCommand : String) : String :=
  "screen -dmS " ++ userLogin ++ "_" ++ toString codigoLive ++
    " bash -c \"" ++ ffmpegCommand ++ "; exec sh\""

/-- Handler `POST /api/streaming/start-live`.  After validation the handler always
inserts a `lives` row with status `'2'` — there is no check against existing
active sessions of the owner.  For an immediate start it runs the screen
command over SSH, waits, runs the `ps` verification, and either marks the
row `'1'`/started or `'3'`/erro.  In the zero-process branch the source
first sets status `'3'` and then builds its diagnostic response from
`playerUrls`, a constant declared only inside the success branch; reading it
raises `ReferenceError: playerUrls is not defined`, which the surrounding
SSH catch answers with its generic failure payload (status `'3'` again).
Oracle parameters: `sshStartThrows` / `sshCheckThrows` model transport
failures of the two `SSHManager.executeCommand` calls (message
`sshErrorMsg`), `processCount` the parsed `wc -l` output. -/
def startLive (app : AppState) (userId : Nat) (userLogin : String) (req : StartLiveReq)
    (sshStartThrows sshCheckThrows : Bool) (sshErrorMsg : String)
    (processCount : Nat) (now : Nat) : AppState × List RemoteAction × StartLiveResult :=
  if req.servidor_rtmp.isEmpty || req.servidor_rtmp_chave.isEmpty || req.data_fim == 0 then
    (app, [], .invalidRequest "Servidor RTMP, chave e data fim são obrigatórios")
  else
    let st := app.store
    let servidor_live := servidorLive req.servidor_rtmp req.servidor_rtmp_chave
    let serverId := userServerId st userId
    let codigoLive := st.nextLiveId
    let row : LiveRow :=
      { codigo := codigoLive, codigo_stm := userId, tipo := req.tipo,
        servidor_stm := req.servidor_stm, servidor_live := servidor_live,
        status := .agendado, data_inicio := req.data_inicio.getD now,
        data_fim := some req.data_fim }
    let st1 := { st with lives := st.lives ++ [row], nextLiveId := st.nextLiveId + 1 }
    if req.inicio_imediato then
      let ffmpegCommand := buildFfmpegCommand req.tipo req.servidor_stm servidor_live
      let startAction := RemoteAction.sshExec serverId
        ("echo OK; " ++ screenCommand userLogin codigoLive ffmpegCommand)
      if sshStartThrows then
        (⟨setLiveStatus st1 codigoLive .erro, app.activeTransmissions⟩,
         [startAction], .sshFailure codigoLive sshErrorMsg)
      else
        let checkAction := RemoteAction.sshExec serverId (psCheckCommand userLogin req.tipo)
        if sshCheckThrows then
          (⟨setLiveStatus st1 codigoLive .erro, app.activeTransmissions⟩,
           [startAction, checkAction], .sshFailure codigoLive sshErrorMsg)
        else if processCount > 0 then
          (⟨setLiveStarted st1 codigoLive now, app.activeTransmissions⟩,
           [startAction, checkAction], .started codigoLive)
        else
          (⟨setLiveStatus st1 codigoLive .erro, app.activeTransmissions⟩,
           [startAction, checkAction], .sshFailure codigoLive "playerUrls is not defined")
    else
      (⟨st1, app.activeTransmissions⟩, [], .scheduled codigoLive)

/-! ## `POST /api/streaming/stop-live/:id` (lines 386-454) -/

inductive StopLiveResult
  | notFound
  | ok (liveId : Nat) (platform : String)
  | sshFailure (details : String)
deriving DecidableEq

/-- The screen-kill command of the stop / remove / shutdown handlers. -/
def killCommand (userLogin : String) (liveId : Nat) : String :=
  "screen -ls | grep -o \x27[0-9]*\\." ++ userLogin ++ "_" ++ toString liveId ++
    "\\>\x27 | xargs -I\x7b\x7d screen -X -S \x7b\x7d quit"

/-- Handler `POST /api/streaming/stop-live/:id`: look the live up; kill its screen
session over SSH; only on SSH success update the row to `'0'` with
`data_fim = NOW()` and drop the `activeTransmissions` key.  On SSH failure
nothing is written — the row keeps whatever state it had. -/
def stopLive (app : AppState) (userId liveId : Nat) (userLogin : String)
    (sshOk : Bool) (now : Nat) : AppState × List RemoteAction × StopLiveResult :=
  let st := app.store
  match st.lives.find? (fun l => l.codigo == liveId && l.codigo_stm == userId) with
  | none => (app, [], .notFound)
  | some live =>
    let serverId := userServerId st userId
    let killAction := RemoteAction.sshExec serverId ("echo OK; " ++ killCommand userLogin liveId)
    if sshOk then
      (⟨setLiveStopped st liveId now,
        app.activeTransmissions.filter (fun k => !(k.1 == userId && k.2 == liveId))⟩,
       [killAction],
       .ok liveId live.tipo)
    else
      (app, [killAction], .sshFailure "Erro ao finalizar transmissão no servidor")

/-! ## `GET /api/streaming/status` (lines 525-620) -/

structure StatusResp where
  is_live : Bool
  stream_type : Option String
deriving DecidableEq

/-- Semantics of `ORDER BY data_inicio DESC LIMIT 1`: the row with the greatest
`data_inicio` (ties resolved arbitrarily, as in the unordered SQL result). -/
def latestBy {α : Type} : List α → (α → Nat) → Option α
  | [], _ => none
  | r :: rs, k =>
    match latestBy rs k with
    | none => some r
    | some b => if k b > k r then some b else some r

/-- Handler `GET /api/streaming/status`: take the most recent `transmissoes` row of
the owner regardless of its status (the source comments this choice) and
report `is_live: true` if one exists; otherwise do the same over `lives`;
only report not-live when the owner has no row in either table. -/
def statusQuery (st : Store) (userId : Nat) : StatusResp :=
  match latestBy (st.transmissoes.filter (fun t => t.codigo_stm == userId)) (fun t => t.data_inicio) with
  | some _ => ⟨true, some "playlist"⟩
  | none =>
    match latestBy (st.lives.filter (fun l => l.codigo_stm == userId)) (fun l => l.data_inicio) with
    | some _ => ⟨true, some "obs"⟩
    | none => ⟨false, none⟩

/-! ## Shutdown sweep — `process.on('SIGINT' / 'SIGTERM')` (lines 977-1054)

Both signal handlers iterate the in-memory `activeTransmissions` map: for
each key they look the user up in `streamings`, kill the screen session over
SSH and mark the live `'0'` with `data_fim = NOW()`; a throw anywhere in the
body of the loop is caught and the loop continues.  Finally the map is
cleared and the process exits. -/

/-- One iteration of the shutdown loop for map key `(userId, liveId)`. -/
def sweepKey (st : Store) (key : Nat × Nat) (sshOk : Bool) (now : Nat) :
    Store × List RemoteAction :=
  match st.streamings.find? (fun s => s.codigo_cliente == key.1) with
  | none => (st, [])
  | some srow =>
    let userLogin := jsStrOr srow.usuario (emailLocal srow.email)
    let serverId := userServerId st key.1
    let killAction := RemoteAction.sshExec serverId ("echo OK; " ++ killCommand userLogin key.2)
    if sshOk then (setLiveStopped st key.2 now, [killAction])
    else (st, [killAction])

/-- The whole termination-signal sweep.  `sshOk` tells, per key, whether the
SSH kill throws (in which case the catch skips that key's DB update). -/
def shutdownSweep (app : AppState) (sshOk : Nat × Nat → Bool) (now : Nat) :
    AppState × List RemoteAction :=
  let step := app.activeTransmissions.foldl
    (fun (acc : Store × List RemoteAction) key =>
      let r := sweepKey acc.1 key (sshOk key) now
      (r.1, acc.2 ++ r.2))
    (app.store, [])
  (⟨step.1, []⟩, step.2)

/-! ## Media-Server Control Client — `WowzaStreamingService`

The HTTP calls of the service are modelled by their method and explicit
timeout (milliseconds), and the outcome of a call by `CallOutcome`; every
method follows the same pattern: `response.ok` means success, any non-ok
response or thrown error (timeouts included) means failure. -/

inductive HttpMethod
  | get
  | post
  | put
deriving DecidableEq

structure WowzaRequest where
  method : HttpMethod
  timeout : Nat
deriving DecidableEq

inductive CallOutcome
  | ok
  | httpError
  | timedOut
deriving DecidableEq

/-- The shared `response.ok` / catch pattern of every service method. -/
def wowzaCallOk : CallOutcome → Bool
  | .ok => true
  | .httpError => false
  | .timedOut => false

def testConnectionReq : WowzaRequest := ⟨.get, 10000⟩
def checkApplicationExistsReq : WowzaRequest := ⟨.get, 10000⟩
def createUserApplicationReq : WowzaRequest := ⟨.post, 15000⟩
def startStreamPublisherReq : WowzaRequest := ⟨.put, 15000⟩
def configurePushPublishReq : WowzaRequest := ⟨.post, 10000⟩
def stopStreamReq : WowzaRequest := ⟨.put, 10000⟩
def getStreamStatsReq : WowzaRequest := ⟨.get, 10000⟩
def getOBSStreamStatsReq : WowzaRequest := ⟨.get, 10000⟩
def checkUserIncomingStreamsReq : WowzaRequest := ⟨.get, 10000⟩
def listAllIncomingStreamsReq : WowzaRequest := ⟨.get, 10000⟩
def getStreamDetailsReq : WowzaRequest := ⟨.get, 10000⟩
def stopOBSStreamReq : WowzaRequest := ⟨.put, 10000⟩
def pauseSMILStreamReq : WowzaRequest := ⟨.put, 10000⟩
def resumeSMILStreamReq : WowzaRequest := ⟨.put, 10000⟩
def listRecordingsReq : WowzaRequest := ⟨.get, 10000⟩

/-- Every fetch call of `WowzaStreamingService`, in source order. -/
def wowzaRequests : List WowzaRequest :=
  [testConnectionReq, checkApplicationExistsReq, createUserApplicationReq,
   startStreamPublisherReq, configurePushPublishReq, stopStreamReq,
   getStreamStatsReq, getOBSStreamStatsReq, checkUserIncomingStreamsReq,
   listAllIncomingStreamsReq, getStreamDetailsReq, stopOBSStreamReq,
   pauseSMILStreamReq, resumeSMILStreamReq, listRecordingsReq]

structure PushResult where
  success : Bool
  error : Option String
deriving DecidableEq

/-- Method `stopStream` (lines 295-324): PUT the disconnect action; `response.ok`
yields success, a non-ok response or a thrown error (timeout included)
yields `success: false` with the error text. -/
def stopStream (outcome : CallOutcome) (errText : String) : PushResult :=
  match outcome with
  | .ok => { success := true, error := none }
  | .httpError => { success := false, error := some errText }
  | .timedOut => { success := false, error := some errText }

/-! ## `startSMILStream` and push fan-out (part_000, lines 73-292) -/

structure PushPlatform where
  codigo : String
  nome : String
  rtmp_base_url : String
  rtmp_url : Option String
  stream_key : String
deriving DecidableEq

structure SMILConfig where
  streamId : Nat
  userLogin : String
  bitrate : Option Nat
  smilFile : String
  platforms : List PushPlatform
deriving DecidableEq

structure SMILData where
  rtmpUrl : String
  streamName : String
  hlsUrl : String
  smilUrl : String
  bitrate : Nat
deriving DecidableEq

inductive SMILResult
  | ok (streamId : Nat) (data : SMILData)
  | failure (error : String)
deriving DecidableEq

/-- The control-plane calls `startSMILStream` makes, for the trace. -/
inductive WowzaCall
  | checkApp (login : String)
  | createApp (login : String)
  | connectPublisher (login smil : String)
  | pushPublish (login entry : String)
deriving DecidableEq

/-- Method `configurePushPublish` (lines 252-292): POST one push-publish map entry;
never throws — both the non-ok response and a thrown error are turned into
`success: false`.  `pushOk` is the outcome oracle. -/
def configurePushPublish (pushOk : Bool) (userLogin : String) (p : PushPlatform) :
    PushResult × WowzaCall :=
  (if pushOk then { success := true, error := none }
   else { success := false, error := some ("push " ++ p.nome ++ " failed") },
   WowzaCall.pushPublish userLogin p.codigo)

/-- Method `startSMILStream` (lines 73-124): ensure the user application exists
(the result of `createUserApplication` is ignored), connect the stream
publisher, then try `configurePushPublish` once per platform inside a
per-platform try/catch whose handler only logs — the per-target results are
discarded and the success payload is built from the config alone. -/
def startSMILStream (appExists _createOk publisherOk : Bool) (publisherErr : String)
    (pushOk : String → Bool) (cfg : SMILConfig) : SMILResult × List WowzaCall :=
  let calls0 := [WowzaCall.checkApp cfg.userLogin] ++
    (if appExists then [] else [WowzaCall.createApp cfg.userLogin])
  let calls1 := calls0 ++ [WowzaCall.connectPublisher cfg.userLogin cfg.smilFile]
  if publisherOk then
    let pushCalls := cfg.platforms.map
      (fun p => (configurePushPublish (pushOk p.codigo) cfg.userLogin p).2)
    (.ok cfg.streamId
      { rtmpUrl := "rtmp://stmv1.udicast.com:1935/" ++ cfg.userLogin,
        streamName := cfg.userLogin,
        hlsUrl := "http://stmv1.udicast.com:80/" ++ cfg.userLogin ++ "/" ++ cfg.userLogin ++ "/playlist.m3u8",
        smilUrl := "http://stmv1.udicast.com:80/" ++ cfg.userLogin ++ "/smil:" ++ cfg.smilFile ++ "/playlist.m3u8",
        bitrate := jsNumOr cfg.bitrate 2500 },
     calls1 ++ pushCalls)
  else
    (.failure ("Erro ao iniciar stream publisher: " ++ publisherErr), calls1)

/-! ## Incoming-stream matching (part_000, lines 398-403 and 497-502) -/

structure IncomingStream where
  name : String
deriving DecidableEq

/-- The predicate of `getOBSStreamStats` / `checkUserIncomingStreams`:
`name === login_live || name === login || name.includes(login)`. -/
def obsStreamMatch (userLogin : String) (s : IncomingStream) : Bool :=
  s.name == userLogin ++ "_live" || s.name == userLogin || strContains s.name userLogin

/-- Call `incomingStreams.find(...)`: first list element satisfying the
disjunctive predicate. -/
def findUserStream (userLogin : String) (streams : List IncomingStream) :
    Option IncomingStream :=
  streams.find? (obsStreamMatch userLogin)

/-- The `isLive` flag and reported stream name of `getOBSStreamStats`:
a found stream is reported live under its own name; no match is not-live. -/
def getOBSStreamStats (userLogin : String) (streams : List IncomingStream) :
    Bool × String :=
  match findUserStream userLogin streams with
  | some s => (true, s.name)
  | none => (false, userLogin ++ "_live")

/-- Modelled from the spec (§4.3): two-tier priority matching — an exact
name match over the whole list first, then a name containing the owner's
login; used only to compare against the source's `findUserStream`. -/
def specTwoTierFind (userLogin : String) (streams : List IncomingStream) :
    Option IncomingStream :=
  match streams.find? (fun s => s.name == userLogin) with
  | some s => some s
  | none => streams.find? (fun s => strContains s.name userLogin)

/-! ## `checkUserLimits` (part_000, lines 736-759) -/

structure BitrateLimits where
  max : Nat
  requested : Nat
  allowed : Nat
deriving DecidableEq

structure UserLimits where
  success : Bool
  bitrate : BitrateLimits
  viewersMax : Nat
  warnings : List String
deriving DecidableEq

/-- Method `checkUserLimits(userConfig, requestedBitrate)`: plan maximum is
`userConfig.bitrate || 2500`; the allowed bitrate is
`requestedBitrate ? Math.min(requestedBitrate, maxBitrate) : maxBitrate`
(JavaScript truthiness: `0` and `undefined` both fall back); one warning is
pushed exactly when a truthy requested bitrate exceeds the plan maximum. -/
def checkUserLimits (cfgBitrate cfgEspectadores requestedBitrate : Option Nat) :
    UserLimits :=
  let maxBitrate := jsNumOr cfgBitrate 2500
  let allowedBitrate :=
    match requestedBitrate with
    | some r => if r == 0 then maxBitrate else Nat.min r maxBitrate
    | none => maxBitrate
  let warnings :=
    match requestedBitrate with
    | some r =>
      if r != 0 && r > maxBitrate then
        ["Bitrate solicitado (" ++ toString r ++
          " kbps) excede o limite do plano (" ++ toString maxBitrate ++ " kbps)"]
      else []
    | none => []
  { success := true,
    bitrate := { max := maxBitrate, requested := jsNumOr requestedBitrate maxBitrate,
                 allowed := allowedBitrate },
    viewersMax := jsNumOr cfgEspectadores 100,
    warnings := warnings }

/-! ## Concrete instances used by the counterexamples and witnesses -/

/-- Owner 1's live number 7, currently transmitting (status `'1'`). -/
def liveAlice : LiveRow :=
  { codigo := 7, codigo_stm := 1, tipo := "youtube", servidor_stm := "s",
    servidor_live := "d", status := .transmitindo, data_inicio := 10,
    data_fim := some 99 }

def storeC1 : Store :=
  { transmissoes := [], lives := [liveAlice], playlists := [], streamings := [],
    folders := [], nextTransId := 1, nextLiveId := 8 }

def appC1 : AppState := ⟨storeC1, []⟩

def reqC1 : StartLiveReq :=
  { tipo := "youtube", servidor_rtmp := "rtmp://a.rtmp.youtube.com/live2/",
    servidor_rtmp_chave := "key", servidor_stm := "src", data_inicio := none,
    data_fim := 99, inicio_imediato := false }

/-- A store whose owner 1 already has an active playlist transmission and
also owns playlist 2 with videos, so a fresh start request passes every
validation and reaches the conflict check. -/
def storeC1b : Store :=
  { transmissoes := [⟨3, 1, "t", "", 2, .ativa, 5, none⟩], lives := [],
    playlists := [⟨2, 1, "pl", 3⟩], streamings := [], folders := [],
    nextTransId := 4, nextLiveId := 1 }

/-- Owner 5's only session, already finalizada (Stopped). -/
def transDone : TransRow :=
  { codigo := 2, codigo_stm := 5, titulo := "t", descricao := "",
    codigo_playlist := 1, status := .finalizada, data_inicio := 10,
    data_fim := some 20 }

def storeC2 : Store :=
  { transmissoes := [transDone], lives := [], playlists := [], streamings := [],
    folders := [], nextTransId := 3, nextLiveId := 1 }

def appC3 : AppState := ⟨storeC1, []⟩

def reqC4 : StartLiveReq :=
  { tipo := "youtube", servidor_rtmp := "rtmp://a.rtmp.youtube.com/live2/",
    servidor_rtmp_chave := "k", servidor_stm := "src", data_inicio := none,
    data_fim := 999, inicio_imediato := true }

def appC4 : AppState :=
  ⟨{ transmissoes := [], lives := [], playlists := [], streamings := [],
     folders := [], nextTransId := 1, nextLiveId := 10 }, []⟩

/-- Owner 1 is Live and registered in `streamings`, but the in-memory map is
empty — its state in every run, since nothing ever adds to it. -/
def appC5 : AppState :=
  ⟨{ transmissoes := [], lives := [liveAlice], playlists := [],
     streamings := [⟨30, 1, "alice", "alice@x.com"⟩], folders := [],
     nextTransId := 1, nextLiveId := 8 }, []⟩

def pYoutube : PushPlatform :=
  { codigo := "youtube", nome := "YouTube",
    rtmp_base_url := "rtmp://a.rtmp.youtube.com/live2/", rtmp_url := none,
    stream_key := "yk" }

def pTwitch : PushPlatform :=
  { codigo := "twitch", nome := "Twitch",
    rtmp_base_url := "rtmp://live-dfw.twitch.tv/app/", rtmp_url := none,
    stream_key := "tk" }

def cfgC6 : SMILConfig :=
  { streamId := 42, userLogin := "alice", bitrate := some 2500,
    smilFile := "playlists_agendamentos.smil", platforms := [pYoutube, pTwitch] }

/-- Push oracle under which exactly the twitch target fails. -/
def pushFailTwitch : String → Bool := fun c => !(c == "twitch")

def streamsC7 : List IncomingStream := [⟨"xalicey"⟩, ⟨"alice"⟩]

/-! ### Substring lemmas -/

theorem listHasPre_self (n : List Char) : listHasPre n n = true := by
  induction n with
  | nil => rfl
  | cons c ns ih => simp [listHasPre, ih]

theorem listHasPre_self_append (n z : List Char) :
    listHasPre n (n ++ z) = true := by
  induction n with
  | nil => rfl
  | cons c ns ih => simp [listHasPre, ih]

theorem listHasPre_append (n w z : List Char) (h : listHasPre n w = true) :
    listHasPre n (w ++ z) = true := by
  induction n generalizing w with
  | nil => rfl
  | cons c ns ih =>
    cases w with
    | nil => simp [listHasPre] at h
    | cons b ws =>
      simp only [listHasPre, Bool.and_eq_true, beq_iff_eq] at h ⊢
      exact ⟨h.1, ih ws h.2⟩

theorem listHasSub_nil (h : List Char) : listHasSub [] h = true := by
  cases h with
  | nil => rfl
  | cons c hs => simp [listHasSub, listHasPre]

theorem listHasSub_of_pre (n h : List Char) (hp : listHasPre n h = true) :
    listHasSub n h = true := by
  cases h with
  | nil =>
    cases n with
    | nil => rfl
    | cons c ns => simp [listHasPre] at hp
  | cons c hs => simp [listHasSub, hp]

theorem listHasSub_append_right (n y z : List Char)
    (h : listHasSub n y = true) : listHasSub n (y ++ z) = true := by
  induction y with
  | nil =>
    simp only [listHasSub, List.isEmpty_iff] at h
    subst h
    exact listHasSub_nil z
  | cons c ys ih =>
    simp only [listHasSub, Bool.or_eq_true, List.cons_append] at h ⊢
    cases h with
    | inl hp => exact Or.inl (listHasPre_append _ _ _ hp)
    | inr hs => exact Or.inr (ih hs)

theorem listHasSub_append_left (n x y : List Char)
    (h : listHasSub n y = true) : listHasSub n (x ++ y) = true := by
  induction x with
  | nil => simpa using h
  | cons c xs ih =>
    simp only [List.cons_append, listHasSub, Bool.or_eq_true]
    exact Or.inr ih

theorem strContains_self_append (a b : String) :
    strContains (a ++ b) a = true := by
  have : (a ++ b).data = a.data ++ b.data := rfl
  simp only [strContains, this]
  exact listHasSub_of_pre _ _ (listHasPre_self_append _ _)

/-- The vertical-crop invocation contains the fixed crop expression for every
source and destination URL. -/
theorem crop_in_vertical_command (tipo s d : String)
    (h : tipo = "tiktok" ∨ tipo = "kwai") :
    strContains (buildFfmpegCommand tipo s d) cropExpr = true := by
  have htipo : (tipo == "facebook") = false := by
    rcases h with h | h <;> subst h <;> rfl
  have hvert : (tipo == "tiktok" || tipo == "kwai") = true := by
    rcases h with h | h <;> subst h <;> rfl
  simp only [buildFfmpegCommand, htipo, hvert, if_true, if_false, Bool.false_eq_true]
  simp only [strContains, String.data_append]
  apply listHasSub_append_right
  apply listHasSub_append_right
  apply listHasSub_append_left
  decide

theorem strContains_self (s : String) : strContains s s = true :=
  listHasSub_of_pre _ _ (listHasPre_self _)

/-! ### List helper lemmas -/

theorem find_congr {α : Type} (p q : α → Bool) (h : ∀ a, p a = q a) :
    ∀ l : List α, l.find? p = l.find? q := by
  intro l
  induction l with
  | nil => rfl
  | cons a as ih =>
    simp only [List.find?]
    rw [h a]
    cases q a <;> simp [ih]

theorem any_eq_filter_ne {α : Type} (l : List α) (p : α → Bool) :
    l.any p = !(l.filter p).isEmpty := by
  induction l with
  | nil => rfl
  | cons a as ih =>
    simp only [List.any_cons, List.filter_cons]
    cases h : p a
    · simpa using ih
    · simp

theorem latestBy_cons_isSome {α : Type} (r : α) (rs : List α) (k : α → Nat) :
    (latestBy (r :: rs) k).isSome = true := by
  simp only [latestBy]
  cases latestBy rs k with
  | none => rfl
  | some b =>
    simp only []
    split <;> rfl

theorem latestBy_none_iff {α : Type} (l : List α) (k : α → Nat) :
    latestBy l k = none ↔ l = [] := by
  constructor
  · intro h
    cases l with
    | nil => rfl
    | cons r rs =>
      have hs := latestBy_cons_isSome r rs k
      rw [h] at hs
      simp at hs
  · intro h
    subst h
    rfl

/-! ## C7 — incoming-stream matching -/

theorem obsStreamMatch_eq_contains (login : String) (s : IncomingStream) :
    obsStreamMatch login s = strContains s.name login := by
  unfold obsStreamMatch
  by_cases h1 : s.name = login ++ "_live"
  · rw [h1]
    simp [strContains_self_append]
  · by_cases h2 : s.name = login
    · rw [h2]
      simp [strContains_self]
    · have b1 : (s.name == login ++ "_live") = false := by
        simpa using h1
      have b2 : (s.name == login) = false := by
        simpa using h2
      simp [b1, b2]

/-- C7 counterexample: the list holds a substring-only match before an exact
match; the matcher returns the earlier substring match, so exact matches are
not given priority over the whole list, while the spec-worded two-tier
matcher returns the exact one. -/
theorem C7_counterexample :
    findUserStream "alice" streamsC7 = some ⟨"xalicey"⟩
    ∧ specTwoTierFind "alice" streamsC7 = some ⟨"alice"⟩
    ∧ ("xalicey" : String) ≠ "alice" := by
  refine ⟨by decide, by decide, by decide⟩

/-- C7 amended: matching the incoming-stream list is a single pass in list
order whose predicate is exactly "the name contains the owner's login" (the
two equality disjuncts are subsumed by containment) — the first such stream
wins regardless of match kind — and the owner is reported not-live exactly
when no stream matches. -/
theorem C7_amended (login : String) (streams : List IncomingStream) :
    findUserStream login streams
      = streams.find? (fun s => strContains s.name login)
    ∧ (getOBSStreamStats login streams).1 = (findUserStream login streams).isSome := by
  constructor
  · exact find_congr _ _ (obsStreamMatch_eq_contains login) streams
  · unfold getOBSStreamStats
    cases findUserStream login streams <;> rfl

/-! ## C9 — command builder -/

/-- C9: the command builder is a pure function of the platform id, source
URL and destination URL — identical inputs give byte-identical invocation
strings — and for the vertical-crop platforms tiktok and kwai the built
invocation contains the fixed 9:16 crop expression for every source and
destination, hence regardless of the source's resolution. -/
theorem C9_command_builder (t1 s1 d1 t2 s2 d2 : String)
    (ht : t1 = t2) (hs : s1 = s2) (hd : d1 = d2) :
    buildFfmpegCommand t1 s1 d1 = buildFfmpegCommand t2 s2 d2
    ∧ ∀ s d : String,
        strContains (buildFfmpegCommand "tiktok" s d) cropExpr = true
        ∧ strContains (buildFfmpegCommand "kwai" s d) cropExpr = true := by
  subst ht hs hd
  refine ⟨rfl, fun s d => ⟨?_, ?_⟩⟩
  · exact crop_in_vertical_command _ s d (Or.inl rfl)
  · exact crop_in_vertical_command _ s d (Or.inr rfl)

/-- C9 witness: the purity and crop facts evaluated at one concrete input. -/
theorem C9_command_builder_witness :
    buildFfmpegCommand "tiktok" "rtmp://src" "rtmp://dst"
      = buildFfmpegCommand "tiktok" "rtmp://src" "rtmp://dst"
    ∧ strContains (buildFfmpegCommand "tiktok" "rtmp://src" "rtmp://dst") cropExpr = true := by
  have h := C9_command_builder "tiktok" "rtmp://src" "rtmp://dst"
    "tiktok" "rtmp://src" "rtmp://dst" rfl rfl rfl
  exact ⟨h.1, (h.2 "rtmp://src" "rtmp://dst").1⟩

/-! ## C2 — status query vs terminal states -/

/-- C2 counterexample: owner 5's only session is in the terminal state
`finalizada` (Stopped), yet the status query reports the owner live. -/
theorem C2_counterexample :
    storeC2.transmissoes.all (fun t => t.status == TransStatus.finalizada) = true
    ∧ storeC2.lives = []
    ∧ (statusQuery storeC2 5).is_live = true := by
  refine ⟨by decide, rfl, by decide⟩

/-- C2 amended: the status query reports live exactly when the owner has any
row at all in `transmissoes` or `lives` — the most recent row is taken
regardless of its declared state — so sessions whose declared state is
Stopped or Failed are still reported live, and not-live is reported only
for owners with no session rows. -/
theorem C2_amended (st : Store) (userId : Nat) :
    (statusQuery st userId).is_live
      = (st.transmissoes.any (fun t => t.codigo_stm == userId)
          || st.lives.any (fun l => l.codigo_stm == userId)) := by
  unfold statusQuery
  split
  · rename_i t heq
    have hne : st.transmissoes.filter (fun t => t.codigo_stm == userId) ≠ [] := by
      intro hnil
      rw [(latestBy_none_iff _ _).mpr hnil] at heq
      cases heq
    have hany : st.transmissoes.any (fun t => t.codigo_stm == userId) = true := by
      rw [any_eq_filter_ne]
      cases hfe : (st.transmissoes.filter (fun t => t.codigo_stm == userId)) with
      | nil => exact absurd hfe hne
      | cons x xs => rfl
    simp [hany]
  · rename_i heq1
    have hnil1 : st.transmissoes.filter (fun t => t.codigo_stm == userId) = [] :=
      (latestBy_none_iff _ _).mp heq1
    have hany1 : st.transmissoes.any (fun t => t.codigo_stm == userId) = false := by
      rw [any_eq_filter_ne, hnil1]
      rfl
    split
    · rename_i l heq2
      have hne : st.lives.filter (fun l => l.codigo_stm == userId) ≠ [] := by
        intro hnil
        rw [(latestBy_none_iff _ _).mpr hnil] at heq2
        cases heq2
      have hany2 : st.lives.any (fun l => l.codigo_stm == userId) = true := by
        rw [any_eq_filter_ne]
        cases hfe : (st.lives.filter (fun l => l.codigo_stm == userId)) with
        | nil => exact absurd hfe hne
        | cons x xs => rfl
      simp [hany1, hany2]
    · rename_i heq2
      have hnil2 : st.lives.filter (fun l => l.codigo_stm == userId) = [] :=
        (latestBy_none_iff _ _).mp heq2
      have hany2 : st.lives.any (fun l => l.codigo_stm == userId) = false := by
        rw [any_eq_filter_ne, hnil2]
        rfl
      simp [hany1, hany2]

/-! ## C8 — control-client timeouts -/

/-- C8 counterexample: `stopStream` is a mutating (PUT) control call whose
explicit timeout is 10 seconds, not the claimed 15 seconds. -/
theorem C8_counterexample :
    stopStreamReq.method = HttpMethod.put
    ∧ stopStreamReq.timeout = 10000
    ∧ stopStreamReq.timeout ≠ 15000 := by
  refine ⟨rfl, rfl, by decide⟩

/-- C8 amended: every control-client call carries an explicit timeout of
10s or 15s, every read (GET) call uses 10s, and a timed-out call is treated
as a failed call, never as success; but 15s is used only by the
application-create and publisher-connect mutating calls — the mutating
push-configure, stream-stop, OBS-stop, pause and resume calls use 10s. -/
theorem C8_amended :
    wowzaRequests.all (fun r => r.timeout == 10000 || r.timeout == 15000) = true
    ∧ wowzaRequests.all (fun r => !(r.method == HttpMethod.get) || (r.timeout == 10000)) = true
    ∧ createUserApplicationReq.timeout = 15000
    ∧ startStreamPublisherReq.timeout = 15000
    ∧ configurePushPublishReq.timeout = 10000
    ∧ stopStreamReq.timeout = 10000
    ∧ stopOBSStreamReq.timeout = 10000
    ∧ pauseSMILStreamReq.timeout = 10000
    ∧ resumeSMILStreamReq.timeout = 10000
    ∧ wowzaCallOk CallOutcome.timedOut = false
    ∧ ∀ e : String, (stopStream CallOutcome.timedOut e).success = false := by
  refine ⟨by decide, by decide, rfl, rfl, rfl, rfl, rfl, rfl, rfl, rfl, fun e => rfl⟩

/-! ## C10 — user bitrate limits -/

/-- C10 counterexample: a requested bitrate of 0 is falsy in JavaScript, so
the allowed bitrate falls back to the plan maximum (2500) instead of the
claimed `min(requested, planMax) = 0`. -/
theorem C10_counterexample :
    (checkUserLimits none none (some 0)).bitrate.allowed = 2500
    ∧ Nat.min 0 2500 = 0
    ∧ (checkUserLimits none none (some 0)).bitrate.allowed ≠ Nat.min 0 2500 := by
  refine ⟨rfl, by decide, by decide⟩

/-- C10 amended: `checkUserLimits` always returns success; writing `maxB`
for `userConfig.bitrate || 2500`, the allowed bitrate equals
`min(requested, maxB)` for every truthy (nonzero) requested bitrate and
`maxB` when the requested bitrate is absent or zero — equivalently it is
`min (requested || maxB) maxB` — so it never exceeds the plan maximum; and
exactly one warning is produced exactly when a truthy requested bitrate
exceeds the plan maximum. -/
theorem C10_amended (cfgB cfgE req : Option Nat) :
    (checkUserLimits cfgB cfgE req).success = true
    ∧ (checkUserLimits cfgB cfgE req).bitrate.allowed
        = Nat.min (jsNumOr req (jsNumOr cfgB 2500)) (jsNumOr cfgB 2500)
    ∧ (checkUserLimits cfgB cfgE req).bitrate.allowed
        ≤ (checkUserLimits cfgB cfgE req).bitrate.max
    ∧ (checkUserLimits cfgB cfgE req).warnings.length
        = (if jsNumOr req 0 > jsNumOr cfgB 2500 then 1 else 0) := by
  have hall : (checkUserLimits cfgB cfgE req).bitrate.allowed
      = Nat.min (jsNumOr req (jsNumOr cfgB 2500)) (jsNumOr cfgB 2500) := by
    rcases req with _ | r
    · simp [checkUserLimits, jsNumOr]
    · by_cases hr : r = 0
      · subst hr
        simp [checkUserLimits, jsNumOr]
      · have hb : (r == 0) = false := by simpa using hr
        simp [checkUserLimits, jsNumOr, hb]
  refine ⟨rfl, hall, ?_, ?_⟩
  · have hmax : (checkUserLimits cfgB cfgE req).bitrate.max = jsNumOr cfgB 2500 := rfl
    rw [hall, hmax]
    exact Nat.min_le_right _ _
  · rcases req with _ | r
    · simp [checkUserLimits, jsNumOr]
    · by_cases hr : r = 0
      · subst hr
        simp [checkUserLimits, jsNumOr]
      · have hb : (r != 0) = true := by simpa using hr
        have hbeq : (r == 0) = false := by simpa using hr
        simp only [checkUserLimits, jsNumOr, hb, hbeq, Bool.true_and,
          decide_eq_true_eq, if_false, Bool.false_eq_true]
        split <;> simp_all

/-! ## C1 — create-time conflict check -/

/-- C1 counterexample: owner 1 already has live 7 in the Live state, yet a
valid `start-live` create for the same owner is not rejected — it inserts a
second `lives` row and reports it scheduled, so the conflict check does not
hold for the external-push kind. -/
theorem C1_counterexample :
    storeC1.lives.any (fun l => l.codigo_stm == 1 && l.status == LiveStatus.transmitindo) = true
    ∧ (startLive appC1 1 "alice" reqC1 false false "" 0 20).2.2 = .scheduled 8
    ∧ (startLive appC1 1 "alice" reqC1 false false "" 0 20).1.store.lives.length = 2 := by
  refine ⟨by decide, by decide, by decide⟩

/-- C1 amended: whenever the owner already has an active transmission, the
playlist-start handler inserts nothing, issues no remote action and never
reports success — and on every request that reaches the check (title and
playlist present, playlist found with videos) it answers with its conflict
response; otherwise it proceeds to insert.  The external-push `start-live`
handler performs no concurrency check: once its field validation passes it
always inserts a new `lives` row. -/
theorem C1_amended (st : Store) (userId : Nat) (titulo descricao : String)
    (playlist_id now : Nat) :
    (hasActiveTransmission st userId = true →
      (startPlaylist st userId titulo descricao playlist_id now).1 = st
      ∧ (startPlaylist st userId titulo descricao playlist_id now).2.1 = []
      ∧ ∀ i nome, (startPlaylist st userId titulo descricao playlist_id now).2.2 ≠ .ok i nome)
    ∧ (∀ p : PlaylistRow, hasActiveTransmission st userId = true →
        st.playlists.find? (fun q => q.id == playlist_id && ownsStm st userId q.codigo_stm)
          = some p →
        (titulo.isEmpty || playlist_id == 0) = false →
        (p.total_videos == 0) = false →
        (startPlaylist st userId titulo descricao playlist_id now).2.2
          = .conflict "Já existe uma transmissão ativa. Finalize-a antes de iniciar uma nova.")
    ∧ (∀ p : PlaylistRow, hasActiveTransmission st userId = false →
        st.playlists.find? (fun q => q.id == playlist_id && ownsStm st userId q.codigo_stm)
          = some p →
        (titulo.isEmpty || playlist_id == 0) = false →
        (p.total_videos == 0) = false →
        (startPlaylist st userId titulo descricao playlist_id now).2.2
          = .ok st.nextTransId p.nome
        ∧ (startPlaylist st userId titulo descricao playlist_id now).1.transmissoes.length
            = st.transmissoes.length + 1)
    ∧ (∀ (app : AppState) (uid : Nat) (login : String) (req : StartLiveReq)
        (a b : Bool) (msg : String) (pc n2 : Nat),
        (req.servidor_rtmp.isEmpty || req.servidor_rtmp_chave.isEmpty || (req.data_fim == 0))
          = false →
        (startLive app uid login req a b msg pc n2).1.store.lives.length
          = app.store.lives.length + 1) := by
  refine ⟨?_, ?_, ?_, ?_⟩
  · intro h
    unfold startPlaylist
    split
    · exact ⟨rfl, rfl, fun i nome hc => StartResult.noConfusion hc⟩
    · split
      · exact ⟨rfl, rfl, fun i nome hc => StartResult.noConfusion hc⟩
      · split
        · exact ⟨rfl, rfl, fun i nome hc => StartResult.noConfusion hc⟩
        · try rw [if_pos h]
          exact ⟨rfl, rfl, fun i nome hc => StartResult.noConfusion hc⟩
  · intro p h hfind hval hvid
    unfold startPlaylist
    rw [hval]
    simp only [Bool.false_eq_true, if_false]
    rw [hfind]
    simp only [hvid, Bool.false_eq_true, if_false]
    rw [if_pos h]
  · intro p h hfind hval hvid
    unfold startPlaylist
    rw [hval]
    simp only [Bool.false_eq_true, if_false]
    rw [hfind]
    simp [hvid, h]
  · intro app uid login req a b msg pc n2 hval
    unfold startLive
    rw [hval]
    simp only [Bool.false_eq_true, if_false]
    try dsimp only
    split
    · split
      · simp [setLiveStatus]
      · split
        · simp [setLiveStatus]
        · split
          · simp [setLiveStarted]
          · simp [setLiveStatus]
    · simp

/-- C1 witness: the conflict rejection exercised concretely — owner 1 has an
active transmission, the playlist-2 start request passes every validation,
and the handler answers with the conflict response, inserting nothing and
issuing no remote action. -/
theorem C1_amended_witness :
    (startPlaylist storeC1b 1 "Meu titulo" "" 2 50).2.2
      = .conflict "Já existe uma transmissão ativa. Finalize-a antes de iniciar uma nova."
    ∧ (startPlaylist storeC1b 1 "Meu titulo" "" 2 50).1 = storeC1b
    ∧ (startPlaylist storeC1b 1 "Meu titulo" "" 2 50).2.1 = [] := by
  have h1 := (C1_amended storeC1b 1 "Meu titulo" "" 2 50).1 (by decide)
  have h2 := (C1_amended storeC1b 1 "Meu titulo" "" 2 50).2.1 ⟨2, 1, "pl", 3⟩
    (by decide) (by decide) (by decide) (by decide)
  exact ⟨h2, h1.1, h1.2.1⟩

/-! ## C3 — stop semantics -/

/-- C3 counterexample: no Stopping state is ever persisted — after a stop of
Live session 7 whose SSH transport fails, the stored record is still in the
Live state `'1'`, not in a Stopping state, and the caller gets the SSH
failure response. -/
theorem C3_counterexample :
    ((stopLive appC3 1 7 "alice" false 50).1.store.lives.map (fun l => l.status))
      = [LiveStatus.transmitindo]
    ∧ (stopLive appC3 1 7 "alice" false 50).2.2
        = .sshFailure "Erro ao finalizar transmissão no servidor" := by
  refine ⟨by decide, by decide⟩

/-- C3 amended: stop persists no intermediate Stopping state; on transport
success it writes Stopped (`'0'`) with `data_fim = now`; on transport
failure it writes nothing, so the record keeps its previous state — a Live
record stays Live — and the caller receives the failure response; and stop
never sets any record to Live that was not already Live. -/
theorem C3_amended (app : AppState) (userId liveId : Nat) (login : String) (now : Nat) :
    ((stopLive app userId liveId login false now).1.store = app.store)
    ∧ (∀ live,
        app.store.lives.find? (fun l => l.codigo == liveId && l.codigo_stm == userId)
          = some live →
        (stopLive app userId liveId login true now).1.store
          = setLiveStopped app.store liveId now
        ∧ (stopLive app userId liveId login true now).2.2 = .ok liveId live.tipo)
    ∧ (∀ (ok : Bool) (l : LiveRow),
        l ∈ (stopLive app userId liveId login ok now).1.store.lives →
        l.status = .transmitindo → l ∈ app.store.lives) := by
  refine ⟨?_, ?_, ?_⟩
  · unfold stopLive
    dsimp only
    split
    · rfl
    · rfl
  · intro live hfind
    unfold stopLive
    dsimp only
    rw [hfind]
    exact ⟨rfl, rfl⟩
  · intro ok l hmem hst
    unfold stopLive at hmem
    dsimp only at hmem
    rcases hf : List.find? (fun l => l.codigo == liveId && l.codigo_stm == userId) app.store.lives
      with _ | live
    · rw [hf] at hmem
      simpa using hmem
    · rw [hf] at hmem
      cases ok
      · simpa using hmem
      · have hmem' : l ∈ (setLiveStopped app.store liveId now).lives := by
          simpa using hmem
        simp only [setLiveStopped, List.mem_map] at hmem'
        obtain ⟨a, ha, hfa⟩ := hmem'
        by_cases hcd : (a.codigo == liveId) = true
        · rw [if_pos hcd] at hfa
          rw [← hfa] at hst
          exact absurd hst (by simp)
        · rw [if_neg hcd] at hfa
          rw [← hfa]
          exact ha

/-- C3 witness: a successful stop of Live session 7 evaluated concretely. -/
theorem C3_amended_witness :
    (stopLive appC3 1 7 "alice" true 50).1.store = setLiveStopped appC3.store 7 50
    ∧ (stopLive appC3 1 7 "alice" true 50).2.2 = .ok 7 "youtube" := by
  have h := (C3_amended appC3 1 7 "alice" 50).2.1 liveAlice (by decide)
  exact ⟨h.1, h.2⟩

/-! ## C4 — failed verification diagnostics -/

/-- C4: the code evaluated at the failing input — immediate start, SSH
transport fine, zero matching ffmpeg processes after the settling wait.
The session does end in the Failed state `'3'` and no end timestamp is
written by the failure path (`data_fim` keeps the scheduled end recorded at
insert), but the caller does not receive the intended diagnostic payload:
building it reads `playerUrls`, a constant scoped to the success branch, so
the handler answers through its SSH catch with the bare message
`playerUrls is not defined`, which contains neither the ffmpeg command used
nor the verification output. -/
theorem C4_code_bug_eval :
    ((startLive appC4 1 "alice" reqC4 false false "" 0 100).1.store.lives.map
        (fun l => (l.status, l.data_fim))) = [(LiveStatus.erro, some 999)]
    ∧ (startLive appC4 1 "alice" reqC4 false false "" 0 100).2.2
        = .sshFailure 10 "playerUrls is not defined"
    ∧ strContains "playerUrls is not defined"
        (buildFfmpegCommand reqC4.tipo reqC4.servidor_stm
          (servidorLive reqC4.servidor_rtmp reqC4.servidor_rtmp_chave)) = false := by
  refine ⟨by decide, by decide, by decide⟩

/-! ## C5 — shutdown sweep -/

/-- C5 counterexample: a termination signal arrives while owner 1's session
7 is Live and the owner is present in `streamings`, but the
`activeTransmissions` map — the only thing the shutdown handlers iterate —
is empty, as it is in every run since nothing in the module adds to it; the
sweep issues no stop, writes nothing, and the Live session remains
non-terminal after the sweep. -/
theorem C5_counterexample :
    appC5.store.lives.any (fun l => l.status == LiveStatus.transmitindo) = true
    ∧ (shutdownSweep appC5 (fun _ => true) 60).1.store = appC5.store
    ∧ (shutdownSweep appC5 (fun _ => true) 60).2 = [] := by
  refine ⟨by decide, rfl, rfl⟩

/-- C5 amended: on a termination signal the sweep stops and finalizes only
the sessions registered in the in-memory `activeTransmissions` map; when
that map is empty the sweep issues no remote action and changes no record —
and `start-live` never adds an entry to the map, so the sessions it created
are never swept and a Live session can remain non-terminal after shutdown. -/
theorem C5_amended (app : AppState) (sshOk : Nat × Nat → Bool) (now : Nat)
    (h : app.activeTransmissions = []) :
    (shutdownSweep app sshOk now).1.store = app.store
    ∧ (shutdownSweep app sshOk now).2 = []
    ∧ ∀ (uid : Nat) (login : String) (req : StartLiveReq) (a b : Bool)
        (msg : String) (pc n2 : Nat),
        (startLive app uid login req a b msg pc n2).1.activeTransmissions
          = app.activeTransmissions := by
  refine ⟨?_, ?_, ?_⟩
  · simp [shutdownSweep, h]
  · simp [shutdownSweep, h]
  · intro uid login req a b msg pc n2
    unfold startLive
    split
    · rfl
    · try dsimp only
      split
      · split
        · rfl
        · split
          · rfl
          · split <;> rfl
      · rfl

/-- C5 witness: the sweep evaluated on the Live-session state with the empty
map. -/
theorem C5_amended_witness :
    (shutdownSweep appC5 (fun _ => true) 60).1.store = appC5.store
    ∧ (shutdownSweep appC5 (fun _ => true) 60).2 = [] := by
  have h := C5_amended appC5 (fun _ => true) 60 rfl
  exact ⟨h.1, h.2.1⟩

/-! ## C6 — push fan-out partial success -/

/-- C6 counterexample: with two push targets of which twitch fails, the
start still succeeds — but the returned value is exactly the value returned
when every target succeeds, so the response reports nothing about which
targets failed. -/
theorem C6_counterexample :
    (configurePushPublish (pushFailTwitch "twitch") "alice" pTwitch).1.success = false
    ∧ (startSMILStream true true true "" pushFailTwitch cfgC6).1
        = (startSMILStream true true true "" (fun _ => true) cfgC6).1
    ∧ ∃ d, (startSMILStream true true true "" pushFailTwitch cfgC6).1 = .ok 42 d := by
  refine ⟨by decide, rfl, ⟨_, rfl⟩⟩

/-- C6 amended: push-target failures never abort the parent start — a
push-configure call is made for every configured target and, when the
publisher connect succeeds, the start returns success — but the failed
targets are not reported: the returned result does not depend on the push
outcomes at all (they are discarded after logging). -/
theorem C6_amended (appExists createOk publisherOk : Bool) (publisherErr : String)
    (pushOk pushOk2 : String → Bool) (cfg : SMILConfig) :
    (publisherOk = true →
      (∃ d, (startSMILStream appExists createOk publisherOk publisherErr pushOk cfg).1
          = .ok cfg.streamId d)
      ∧ ∀ p ∈ cfg.platforms,
          WowzaCall.pushPublish cfg.userLogin p.codigo
            ∈ (startSMILStream appExists createOk publisherOk publisherErr pushOk cfg).2)
    ∧ (startSMILStream appExists createOk publisherOk publisherErr pushOk cfg).1
        = (startSMILStream appExists createOk publisherOk publisherErr pushOk2 cfg).1 := by
  constructor
  · intro hp
    subst hp
    constructor
    · exact ⟨_, rfl⟩
    · intro p hp2
      show WowzaCall.pushPublish cfg.userLogin p.codigo ∈
        ([WowzaCall.checkApp cfg.userLogin] ++
          (if appExists then [] else [WowzaCall.createApp cfg.userLogin]) ++
          [WowzaCall.connectPublisher cfg.userLogin cfg.smilFile]) ++
        cfg.platforms.map
          (fun p => (configurePushPublish (pushOk p.codigo) cfg.userLogin p).2)
      apply List.mem_append_right
      exact List.mem_map_of_mem _ hp2
  · cases publisherOk <;> rfl

/-- C6 witness: the successful start evaluated on the two-target config. -/
theorem C6_amended_witness :
    (∃ d, (startSMILStream true true true "" (fun _ => true) cfgC6).1
        = .ok cfgC6.streamId d)
    ∧ WowzaCall.pushPublish "alice" "youtube"
        ∈ (startSMILStream true true true "" (fun _ => true) cfgC6).2 := by
  have h := (C6_amended true true true "" (fun _ => true) (fun _ => true) cfgC6).1 rfl
  exact ⟨h.1, h.2 pYoutube (by decide)⟩

end Sam
